import Mathlib

/-!
Shallow embedding of `src/main.py` (Voice-Agent-Leo), a FastAPI voice-chat
relay.  Text is modelled as `List Char` (`Str`), Python truthiness of
optional strings as `pyTruthy`, Python `str.strip()` as `pyStrip` over the
ASCII whitespace set, and `str.lower()` as an ASCII `Char.toLower` map.
External services (AssemblyAI, DuckDuckGo, NewsAPI, Gemini, Murf) appear as
response values supplied by a `World` record; the endpoint
`chat_with_history` becomes a pure function from a `World`, the history
store and the session id to a result and an updated store.
-/

/-- Text as a list of characters (Python `str`, restricted to the ASCII
behaviour of `lower`/`strip` that the orchestration relies on). -/
abbrev Str := List Char

/-- Python truthiness of an optional string: `None` and `""` are falsy. -/
def pyTruthy : Option Str → Bool
  | none => false
  | some s => !s.isEmpty

/-- Whitespace characters stripped by Python `str.strip()` (ASCII subset). -/
def pyIsSpace (c : Char) : Bool :=
  c == ' ' || c == '\t' || c == '\n' || c == '\r' || c == '\x0b' || c == '\x0c'

/-- Python `str.strip()`: drop leading and trailing whitespace. -/
def pyStrip (s : Str) : Str :=
  ((s.dropWhile pyIsSpace).reverse.dropWhile pyIsSpace).reverse

/-- Python `str.lower()` (ASCII case folding). -/
def pyLower (s : Str) : Str := s.map Char.toLower

/-- Python `str.startswith(pre)`. -/
def pyStartswith (s pre : Str) : Bool := s.take pre.length == pre

/-- `main.py` line 204:
`chunks = [llm_reply[i:i + maxlen] for i in range(0, len(llm_reply), maxlen)]`
with `maxlen = 3000` (line 203).  `range(0, L, 3000)` has
`(L + 2999) / 3000` elements, and `s[i:i+3000]` is `(s.drop i).take 3000`. -/
def murfChunks (s : Str) : List Str :=
  (List.range ((s.length + 3000 - 1) / 3000)).map
    (fun i => (s.drop (i * 3000)).take 3000)

theorem murfChunks_length (s : Str) :
    (murfChunks s).length = (s.length + 3000 - 1) / 3000 := by
  simp [murfChunks]

theorem murfChunks_flatten_take (s : Str) (k : Nat) :
    ((List.range k).map (fun i => (s.drop (i * 3000)).take 3000)).flatten
      = s.take (k * 3000) := by
  induction k with
  | zero => simp
  | succ n ih =>
    rw [List.range_succ, List.map_append, List.flatten_append, ih]
    simp only [List.map_cons, List.map_nil, List.flatten_cons, List.flatten_nil,
      List.append_nil]
    rw [← List.take_add, Nat.succ_mul]

theorem murfChunks_flatten (s : Str) : (murfChunks s).flatten = s := by
  rw [murfChunks, murfChunks_flatten_take]
  apply List.take_of_length_le
  omega

theorem murfChunks_chunk_le (s : Str) :
    ∀ c ∈ murfChunks s, c.length ≤ 3000 := by
  intro c hc
  simp only [murfChunks, List.mem_map, List.mem_range] at hc
  obtain ⟨i, _, rfl⟩ := hc
  simp [List.length_take]

/-- Claim C1 (counterexample): the split of the empty reply produces 0
chunks, not `max 1 ⌈0 / 3000⌉ = 1` as the claim states for empty text. -/
theorem chunk_split_empty_cex :
    ¬ ((murfChunks ([] : Str)).length
        = max 1 ((([] : Str).length + 3000 - 1) / 3000)) := by
  decide

/-- Claim C1 (amended): for reply text of length `L` the split produces
exactly `⌈L / 3000⌉` chunks — which equals `max 1 ⌈L / 3000⌉` whenever the
text is non-empty (as every reply reaching the split is), but is 0 for
empty text — each chunk has length at most 3000, and concatenating the
chunks in order reconstructs the reply exactly. -/
theorem chunk_split_spec (s : Str) :
    (murfChunks s).length = (s.length + 3000 - 1) / 3000
      ∧ (∀ c ∈ murfChunks s, c.length ≤ 3000)
      ∧ (murfChunks s).flatten = s
      ∧ (s ≠ [] →
          (murfChunks s).length = max 1 ((s.length + 3000 - 1) / 3000)) := by
  refine ⟨murfChunks_length s, murfChunks_chunk_le s, murfChunks_flatten s, ?_⟩
  intro hne
  rw [murfChunks_length]
  have : 0 < s.length := List.length_pos.mpr hne
  omega

/-- Claim C1 (witness for the amended statement at a concrete input). -/
theorem chunk_split_spec_witness :
    (murfChunks ("abc".toList)).length
      = max 1 ((("abc".toList).length + 3000 - 1) / 3000) :=
  (chunk_split_spec ("abc".toList)).2.2.2 (by decide)

/-- AssemblyAI transcript as consumed by the endpoint (`transcript.error`,
`transcript.text`, lines 143-146). -/
structure Transcript where
  error : Option Str
  text : Option Str
deriving DecidableEq

/-- The JSON body returned on success (line 155, 163, 221). -/
structure ChatResponse where
  user_text : Str
  llm_text : Str
  audio_url : Str
deriving DecidableEq

/-- An HTTPException: status code and detail string. -/
structure HttpError where
  status : Nat
  detail : Str
deriving DecidableEq

/-- One entry of DuckDuckGo's `RelatedTopics` array; a field is `some v`
exactly when the corresponding JSON key is present (lines 92-96 check key
presence, not truthiness). -/
structure RelatedTopic where
  text : Option Str
  firstURL : Option Str
deriving DecidableEq

/-- DuckDuckGo response as consumed by `simple_web_search` (lines 85-97). -/
structure SearchHttp where
  statusCode : Nat
  abstractText : Option Str
  relatedTopics : List RelatedTopic
  heading : Option Str
deriving DecidableEq

/-- `simple_web_search` (lines 81-101); the HTTP GET is elided, its response
supplied as a value.  The query only feeds the request URL. -/
def simpleWebSearch (resp : SearchHttp) (_query : Str) : Str :=
  if resp.statusCode == 200 then
    if pyTruthy resp.abstractText then resp.abstractText.getD []
    else
      let fromTopics : Option Str :=
        match resp.relatedTopics with
        | [] => none
        | first :: _ =>
          match first.text with
          | some t => some t
          | none =>
            match first.firstURL with
            | some u => some ("Here's a link: ".toList ++ u)
            | none => none
      match fromTopics with
      | some r => r
      | none =>
        if pyTruthy resp.heading then
          "I found something about ".toList ++ resp.heading.getD []
            ++ ", but details are limited.".toList
        else "No direct answer found, try refining your query.".toList
  else "Web search service is currently unavailable.".toList

/-- One NewsAPI article; `article['title']` is accessed unconditionally
(line 121), so the title is a required field. -/
structure Article where
  title : Str
deriving DecidableEq

/-- NewsAPI response as consumed by `get_latest_news` (lines 113-121). -/
structure NewsHttp where
  statusCode : Nat
  articles : List Article
deriving DecidableEq

/-- The short-circuit message of `get_latest_news` line 106. -/
def newsNotConfiguredMsg : Str :=
  "NewsAPI key not configured; news feature unavailable.".toList

/-- Body of `get_latest_news` after the key check (lines 107-122); URL
encoding and logging only affect the elided I/O. -/
def newsConfiguredReply (topic : Str) (resp : NewsHttp) : Str :=
  if resp.statusCode ≠ 200 then "News service is currently unavailable.".toList
  else
    match resp.articles with
    | [] => "No news found for '".toList ++ topic ++ "'.".toList
    | arts =>
      "Here are the top headlines:\n".toList
        ++ ((arts.map (fun a => "- ".toList ++ a.title)).intersperse
              "\n".toList).flatten

/-- `get_latest_news` (lines 104-122): short-circuit when the module-level
`NEWSAPI_KEY` is falsy, else the configured reply. -/
def getLatestNews (key : Option Str) (topic : Str) (resp : NewsHttp) : Str :=
  if !pyTruthy key then newsNotConfiguredMsg
  else newsConfiguredReply topic resp

/-- Startup key check, lines 32-39: each of the four environment values is
tested in order and a falsy one raises `RuntimeError`. -/
def startupCheck (assemblyaiKey murfKey geminiKey newsapiKey : Option Str) :
    Except Str Unit :=
  if !pyTruthy assemblyaiKey then
    .error ("ASSEMBLYAI_API_KEY not set in environment".toList)
  else if !pyTruthy murfKey then
    .error ("MURF_API_KEY not set in environment".toList)
  else if !pyTruthy geminiKey then
    .error ("GEMINI_API_KEY not set in environment".toList)
  else if !pyTruthy newsapiKey then
    .error ("NEWSAPI_KEY not set in environment".toList)
  else .ok ()

/-- One history entry, `{"role": role, "text": text}` (line 66). -/
structure Message where
  role : String
  text : Str
deriving DecidableEq

/-- `chat_history_store` (line 58): the dict modelled as a total function,
an absent session id mapped to `[]` exactly as `dict.get(session_id, [])`
does on line 61. -/
abbrev Store := Str → List Message

/-- The store at process start: no session has any history. -/
def emptyStore : Store := fun _ => []

/-- `get_chat_history` (lines 60-61). -/
def getChatHistory (st : Store) (sessionId : Str) : List Message :=
  st sessionId

/-- `add_message_to_history` (lines 63-66): append one message to the
session's log, leaving every other session untouched. -/
def addMessageToHistory (st : Store) (sessionId : Str) (role : String)
    (text : Str) : Store :=
  fun s => if s = sessionId then st s ++ [⟨role, text⟩] else st s

/-- One `{text: ...}` part of an outgoing prompt entry (line 70). -/
structure GeminiPartOut where
  text : Str
deriving DecidableEq

/-- One outgoing prompt entry, the provider's `{role, parts:[{text}]}`
shape (lines 70 and 171). -/
structure GeminiEntry where
  role : String
  parts : List GeminiPartOut
deriving DecidableEq

/-- `PERSONA_PROMPT` (lines 73-78), the fixed persona instruction. -/
def PERSONA_PROMPT : Str :=
  ("You are Leo, a helpful and friendly AI assistant. "
    ++ "You speak clearly, stay concise, and maintain a conversational tone. "
    ++ "You blend warmth with intelligence, avoid being overly formal, "
    ++ "and gently steer the conversation back if the user goes off-topic."
  ).toList

/-- The mapping applied to each history message on line 70. -/
def msgToGeminiEntry (m : Message) : GeminiEntry :=
  ⟨m.role, [⟨m.text⟩]⟩

/-- `build_gemini_contents` (lines 68-70): the last `limit` history
messages (`history[-limit:]`, here `limit = 5 > 0`, hence
`drop (length - limit)`), each mapped to the provider shape. -/
def buildGeminiContents (st : Store) (sessionId : Str) (limit : Nat) :
    List GeminiEntry :=
  let history := (getChatHistory st sessionId).drop
    ((getChatHistory st sessionId).length - limit)
  history.map msgToGeminiEntry

/-- The fixed first prompt entry of line 171. -/
def personaEntry : GeminiEntry :=
  ⟨"model", [⟨PERSONA_PROMPT⟩]⟩

/-- Line 171: `contents = [{persona}] + build_gemini_contents(session_id)`
(the call uses the default `limit = 5`). -/
def geminiRequestContents (st : Store) (sessionId : Str) : List GeminiEntry :=
  personaEntry :: buildGeminiContents st sessionId 5

/-- One part of a Gemini candidate; `text` is `some v` exactly when the
`"text"` key is present (line 189 checks key presence). -/
structure GeminiPartIn where
  text : Option Str
deriving DecidableEq

/-- `candidates[0].get("content", {}).get("parts", [])` (line 188). -/
structure GeminiContent where
  parts : List GeminiPartIn
deriving DecidableEq

/-- One element of the `candidates` array. -/
structure GeminiCandidate where
  content : GeminiContent
deriving DecidableEq

/-- The decoded Gemini JSON body as consumed by lines 186-190. -/
structure GeminiData where
  candidates : List GeminiCandidate
deriving DecidableEq

/-- Gemini HTTP response: status code, raw body (used in the non-200 error
detail, line 178-179) and decoded JSON. -/
structure GeminiHttp where
  statusCode : Nat
  body : Str
  data : GeminiData
deriving DecidableEq

/-- Reply extraction, lines 184-192: first candidate, its content's first
part, that part's `"text"` value stripped; `none` when any of those is
structurally absent.  The enclosing `except` only logs, leaving
`llm_reply = None`, which this `none` also covers. -/
def extractReply (d : GeminiData) : Option Str :=
  match d.candidates with
  | [] => none
  | c :: _ =>
    match c.content.parts with
    | [] => none
    | p :: _ => p.text.map pyStrip

/-- Murf response as consumed by line 211: two optional audio-location
fields, `audioFile` and `audio_url`. -/
structure MurfResponse where
  audioFile : Option Str
  audio_url : Option Str
deriving DecidableEq

/-- `data.get("audioFile") or data.get("audio_url")` (line 211): Python
`or` yields the first operand when truthy, else the second operand. -/
def murfUrl (r : MurfResponse) : Option Str :=
  if pyTruthy r.audioFile then r.audioFile else r.audio_url

/-- `generate_murf_audio` (lines 206-214) on one chunk's response: the
extracted url if truthy, else `HTTPException(500)`. -/
def generateMurfAudio (r : MurfResponse) : Except HttpError Str :=
  if pyTruthy (murfUrl r) then .ok ((murfUrl r).getD [])
  else .error ⟨500, "No audio from Murf for chunk".toList⟩

/-- `asyncio.gather` over one `generate_murf_audio` task per chunk
(line 217), at the result level: all chunk urls in chunk order, or a
failure as soon as any chunk fails. -/
def gatherMurf (murf : Str → MurfResponse) : List Str →
    Except HttpError (List Str)
  | [] => .ok []
  | c :: rest =>
    match generateMurfAudio (murf c) with
    | .error e => .error e
    | .ok u =>
      match gatherMurf murf rest with
      | .error e => .error e
      | .ok us => .ok (u :: us)

/-- Where the router sends a trimmed transcript. -/
inductive Route where
  | search (query : Str)
  | news (topic : Str)
  | conversation
deriving DecidableEq

/-- The prefix dispatch of lines 150-163:
`user_text.lower().startswith("search:")` strips `len("search:")`
characters from the original text and trims; likewise `"news:"`; anything
else falls through to the conversation flow. -/
def routeText (userText : Str) : Route :=
  if pyStartswith (pyLower userText) ("search:".toList) then
    .search (pyStrip (userText.drop ("search:".toList).length))
  else if pyStartswith (pyLower userText) ("news:".toList) then
    .news (pyStrip (userText.drop ("news:".toList).length))
  else .conversation

/-- The external world of one request: the configured news key and the
responses the five providers would give (the per-chunk Murf response as a
function of the chunk's text).  A `.error` in `transcribe` or `geminiResp`
models the client call raising an exception. -/
structure World where
  newsapiKey : Option Str
  transcribe : Except Str Transcript
  searchResp : SearchHttp
  newsResp : NewsHttp
  geminiResp : Except Str GeminiHttp
  murfResp : Str → MurfResponse

/-- State of the request's temporary upload file: whether it is still on
disk, and how many times `os.unlink` has been called on its path. -/
structure FileState where
  onDisk : Bool
  unlinkCalls : Nat
deriving DecidableEq

/-- `os.unlink(temp_path)`: always counts one call; deletes the file when
present, raises `FileNotFoundError` when not. -/
def osUnlink (s : FileState) : Option String × FileState :=
  if s.onDisk then (none, ⟨false, s.unlinkCalls + 1⟩)
  else (some "FileNotFoundError", ⟨false, s.unlinkCalls + 1⟩)

/-- Lines 133-141, the `try/except/finally` around transcription, with
Python semantics: when the body raises, the `except` clause runs
`os.unlink` and raises `HTTPException(500)`, then the `finally` clause
runs `os.unlink` again — and an exception raised in a `finally` clause
replaces the pending one.  When the body succeeds only the `finally`
clause's `os.unlink` runs. -/
def transcribeCleanup (transcribeRaises : Bool) (s0 : FileState) :
    Except String Unit × FileState :=
  if transcribeRaises then
    let r1 := osUnlink s0
    let pending := r1.1.getD "HTTPException(500): Transcription failed"
    let r2 := osUnlink r1.2
    (.error (r2.1.getD pending), r2.2)
  else
    let r1 := osUnlink s0
    match r1.1 with
    | none => (.ok (), r1.2)
    | some e => (.error e, r1.2)

/-- `chat_with_history` (lines 125-221) as a pure function of the world,
the history store and the session id, returning the HTTP-level outcome and
the updated store.  File handling is covered by `transcribeCleanup`; on
the transcription-exception path the second `os.unlink` raises
`FileNotFoundError`, which the framework surfaces as a 500. -/
def chatWithHistory (w : World) (st : Store) (sessionId : Str) :
    Except HttpError ChatResponse × Store :=
  match w.transcribe with
  | .error _ => (.error ⟨500, "FileNotFoundError".toList⟩, st)
  | .ok tr =>
    if pyTruthy tr.error || !pyTruthy tr.text
        || (pyStrip (tr.text.getD [])).isEmpty then
      (.error ⟨400, "Transcription error: ".toList
        ++ (if pyTruthy tr.error then tr.error.getD []
            else "Empty text".toList)⟩, st)
    else
      let userText := pyStrip (tr.text.getD [])
      match routeText userText with
      | .search q =>
        let searchResult := simpleWebSearch w.searchResp q
        let st1 := addMessageToHistory st sessionId "user" userText
        let st2 := addMessageToHistory st1 sessionId "model" searchResult
        (.ok ⟨userText, searchResult, []⟩, st2)
      | .news topic =>
        let newsReport := getLatestNews w.newsapiKey topic w.newsResp
        let st1 := addMessageToHistory st sessionId "user" userText
        let st2 := addMessageToHistory st1 sessionId "model" newsReport
        (.ok ⟨userText, newsReport, []⟩, st2)
      | .conversation =>
        let st1 := addMessageToHistory st sessionId "user" userText
        let _contents := geminiRequestContents st1 sessionId
        match w.geminiResp with
        | .error e =>
          (.error ⟨500, "Gemini call failed: ".toList ++ e⟩, st1)
        | .ok g =>
          if g.statusCode ≠ 200 then
            (.error ⟨500, "Gemini call failed: 500: Gemini API error: ".toList
              ++ g.body⟩, st1)
          else
            match extractReply g.data with
            | none => (.error ⟨500, "LLM reply missing or empty".toList⟩, st1)
            | some r =>
              if r.isEmpty then
                (.error ⟨500, "LLM reply missing or empty".toList⟩, st1)
              else
                let st2 := addMessageToHistory st1 sessionId "model" r
                match gatherMurf w.murfResp (murfChunks r) with
                | .error e =>
                  (.error ⟨500, "Murf call failed: ".toList
                    ++ (toString e.status).toList ++ ": ".toList
                    ++ e.detail⟩, st2)
                | .ok audioUrls =>
                  (.ok ⟨userText, r, audioUrls.headD []⟩, st2)

/-- Claim C2 (code is wrong): on the transcription-exception path the
`except` clause (line 137) and the `finally` clause (line 141) each call
`os.unlink` on the temp path, so the file's path is unlinked twice; the
second call raises `FileNotFoundError`, which replaces the intended
`HTTPException(500)`.  On the success path the file is unlinked exactly
once and the request proceeds. -/
theorem temp_file_double_unlink :
    (transcribeCleanup true ⟨true, 0⟩).2.unlinkCalls = 2
      ∧ (transcribeCleanup true ⟨true, 0⟩).1
          = Except.error "FileNotFoundError"
      ∧ (transcribeCleanup false ⟨true, 0⟩).2.unlinkCalls = 1
      ∧ (transcribeCleanup false ⟨true, 0⟩).1 = Except.ok () :=
  ⟨rfl, rfl, rfl, rfl⟩

/-- Claim C3: routing checks the `"search:"` prefix first and the
`"news:"` prefix second, case-insensitively, stripping exactly one prefix
occurrence and trimming; any other text goes to the conversation flow; and
the endpoint on transcript `"Search: weather today"` invokes the search
skill with query `"weather today"` and returns its result with an empty
`audio_url`. -/
theorem skill_routing_spec :
    (∀ t : Str,
      (pyStartswith (pyLower t) ("search:".toList) = true →
          routeText t = Route.search (pyStrip (t.drop 7)))
        ∧ (pyStartswith (pyLower t) ("search:".toList) = false →
            pyStartswith (pyLower t) ("news:".toList) = true →
            routeText t = Route.news (pyStrip (t.drop 5)))
        ∧ (pyStartswith (pyLower t) ("search:".toList) = false →
            pyStartswith (pyLower t) ("news:".toList) = false →
            routeText t = Route.conversation))
      ∧ routeText ("Search: weather today".toList)
          = Route.search ("weather today".toList)
      ∧ (∀ (w : World) (st : Store) (sessionId : Str),
          w.transcribe
              = Except.ok ⟨none, some ("Search: weather today".toList)⟩ →
          (chatWithHistory w st sessionId).1
            = Except.ok ⟨"Search: weather today".toList,
                simpleWebSearch w.searchResp ("weather today".toList), []⟩) := by
  refine ⟨?_, by decide, ?_⟩
  · intro t
    refine ⟨fun h1 => ?_, fun h1 h2 => ?_, fun h1 h2 => ?_⟩
    · simp at h1
      simp [routeText, h1]
    · simp at h1 h2
      simp [routeText, h1, h2]
    · simp at h1 h2
      simp [routeText, h1, h2]
  · intro w st sessionId htr
    simp only [chatWithHistory, htr]
    rfl

/-- Claim C3 (witness): the endpoint statement at a concrete world. -/
theorem skill_routing_spec_witness :
    (chatWithHistory
        ⟨some ("k".toList),
         Except.ok ⟨none, some ("Search: weather today".toList)⟩,
         ⟨200, some ("Paris".toList), [], none⟩, ⟨200, []⟩,
         Except.error [], fun _ => ⟨none, none⟩⟩
        emptyStore ("s".toList)).1
      = Except.ok ⟨"Search: weather today".toList,
          simpleWebSearch ⟨200, some ("Paris".toList), [], none⟩
            ("weather today".toList), []⟩ :=
  skill_routing_spec.2.2
    ⟨some ("k".toList),
     Except.ok ⟨none, some ("Search: weather today".toList)⟩,
     ⟨200, some ("Paris".toList), [], none⟩, ⟨200, []⟩,
     Except.error [], fun _ => ⟨none, none⟩⟩
    emptyStore ("s".toList) rfl

/-- Claim C4: for every session state the prompt of line 171 has at most 6
entries, its first entry is the fixed persona instruction, and the rest is
exactly the last `min 5 (history length)` messages of the session's log in
order, each mapped to the provider's role/parts shape. -/
theorem prompt_window_spec (st : Store) (sessionId : Str) :
    ∃ pre suf,
      getChatHistory st sessionId = pre ++ suf
        ∧ suf.length = min 5 (getChatHistory st sessionId).length
        ∧ geminiRequestContents st sessionId
            = personaEntry :: suf.map msgToGeminiEntry
        ∧ (geminiRequestContents st sessionId).length ≤ 6
        ∧ (geminiRequestContents st sessionId).head? = some personaEntry := by
  refine ⟨(getChatHistory st sessionId).take
            ((getChatHistory st sessionId).length - 5),
          (getChatHistory st sessionId).drop
            ((getChatHistory st sessionId).length - 5),
          (List.take_append_drop _ _).symm, ?_, rfl, ?_, rfl⟩
  · rw [List.length_drop]
    omega
  · simp only [geminiRequestContents, buildGeminiContents, List.length_cons,
      List.length_map, List.length_drop]
    omega

theorem generateMurfAudio_error (r : MurfResponse)
    (h1 : pyTruthy r.audioFile = false) (h2 : pyTruthy r.audio_url = false) :
    generateMurfAudio r
      = Except.error ⟨500, "No audio from Murf for chunk".toList⟩ := by
  simp [generateMurfAudio, murfUrl, h1, h2]

theorem gatherMurf_error (murf : Str → MurfResponse) (chunks : List Str)
    (c : Str) (hc : c ∈ chunks) (e0 : HttpError)
    (hbad : generateMurfAudio (murf c) = Except.error e0) :
    ∃ e, gatherMurf murf chunks = Except.error e := by
  induction chunks with
  | nil => cases hc
  | cons a l ih =>
    rcases List.mem_cons.mp hc with rfl | h
    · exact ⟨e0, by simp [gatherMurf, hbad]⟩
    · cases hga : generateMurfAudio (murf a) with
      | error e1 => exact ⟨e1, by simp [gatherMurf, hga]⟩
      | ok u =>
        obtain ⟨e, he⟩ := ih h
        exact ⟨e, by simp [gatherMurf, hga, he]⟩

theorem gatherMurf_ok_length (murf : Str → MurfResponse) (chunks : List Str)
    (urls : List Str) (h : gatherMurf murf chunks = Except.ok urls) :
    urls.length = chunks.length := by
  induction chunks generalizing urls with
  | nil =>
    simp [gatherMurf] at h
    simp [← h]
  | cons a l ih =>
    rw [gatherMurf] at h
    cases hga : generateMurfAudio (murf a) with
    | error e => rw [hga] at h; simp at h
    | ok u =>
      rw [hga] at h
      cases hrest : gatherMurf murf l with
      | error e => rw [hrest] at h; simp at h
      | ok us =>
        rw [hrest] at h
        simp only [Except.ok.injEq] at h
        subst h
        simp [ih us hrest]

/-- Claim C5: if some chunk's Murf response has neither a truthy
`audioFile` nor a truthy `audio_url`, the whole synthesis fails and the
request ends as a 500 error, with no response body (hence no partial
`audio_url`) returned. -/
theorem murf_fail_fast_spec (w : World) (st : Store) (sessionId : Str)
    (tr : Transcript) (g : GeminiHttp) (r : Str) (c : Str)
    (htr : w.transcribe = Except.ok tr)
    (hok : (pyTruthy tr.error || !pyTruthy tr.text
      || (pyStrip (tr.text.getD [])).isEmpty) = false)
    (hroute : routeText (pyStrip (tr.text.getD [])) = Route.conversation)
    (hg : w.geminiResp = Except.ok g)
    (h200 : g.statusCode = 200)
    (hr : extractReply g.data = some r)
    (hne : r.isEmpty = false)
    (hc : c ∈ murfChunks r)
    (hbadFile : pyTruthy (w.murfResp c).audioFile = false)
    (hbadUrl : pyTruthy (w.murfResp c).audio_url = false) :
    ∃ e, (chatWithHistory w st sessionId).1 = Except.error e
      ∧ e.status = 500 := by
  obtain ⟨e, he⟩ := gatherMurf_error w.murfResp (murfChunks r) c hc _
    (generateMurfAudio_error (w.murfResp c) hbadFile hbadUrl)
  refine ⟨⟨500, "Murf call failed: ".toList ++ (toString e.status).toList
    ++ ": ".toList ++ e.detail⟩, ?_, rfl⟩
  simp [chatWithHistory, htr, hok, hroute, hg, h200, hr, hne, he]

/-- A Gemini 200 response whose first candidate's first part is "ok". -/
def geminiOkResp : GeminiHttp :=
  ⟨200, [], ⟨[⟨⟨[⟨some ("ok".toList)⟩]⟩⟩]⟩⟩

/-- A request world whose Murf responses carry no audio field at all. -/
def murfNoAudioWorld : World :=
  ⟨some ("k".toList), Except.ok ⟨none, some ("hi".toList)⟩,
   ⟨200, none, [], none⟩, ⟨200, []⟩, Except.ok geminiOkResp,
   fun _ => ⟨none, none⟩⟩

/-- Claim C5 (witness): a concrete request whose single synthesis chunk
gets a Murf response with neither audio field fails with a 500. -/
theorem murf_fail_fast_spec_witness :
    ∃ e, (chatWithHistory murfNoAudioWorld emptyStore ("s".toList)).1
        = Except.error e
      ∧ e.status = 500 :=
  murf_fail_fast_spec murfNoAudioWorld emptyStore ("s".toList)
    ⟨none, some ("hi".toList)⟩ geminiOkResp ("ok".toList) ("ok".toList)
    rfl (by decide) (by decide) rfl rfl (by decide) (by decide) (by decide)
    (by decide) (by decide)

/-- Claim C6: when every chunk's synthesis succeeds the endpoint responds
`200` with `audio_url` equal to the FIRST gathered chunk url only, even
though one url per chunk was produced; and a 7000-character reply is split
into exactly 3 chunks. -/
theorem first_chunk_url_spec :
    (∀ (w : World) (st : Store) (sessionId : Str) (tr : Transcript)
        (g : GeminiHttp) (r : Str) (urls : List Str),
      w.transcribe = Except.ok tr →
      (pyTruthy tr.error || !pyTruthy tr.text
        || (pyStrip (tr.text.getD [])).isEmpty) = false →
      routeText (pyStrip (tr.text.getD [])) = Route.conversation →
      w.geminiResp = Except.ok g →
      g.statusCode = 200 →
      extractReply g.data = some r →
      r.isEmpty = false →
      gatherMurf w.murfResp (murfChunks r) = Except.ok urls →
      (chatWithHistory w st sessionId).1
          = Except.ok ⟨pyStrip (tr.text.getD []), r, urls.headD []⟩
        ∧ urls.length = (murfChunks r).length)
    ∧ (murfChunks (List.replicate 7000 'a')).length = 3 := by
  constructor
  · intro w st sessionId tr g r urls htr hok hroute hg h200 hr hne hgather
    constructor
    · simp [chatWithHistory, htr, hok, hroute, hg, h200, hr, hne, hgather]
    · exact gatherMurf_ok_length w.murfResp (murfChunks r) urls hgather
  · rw [murfChunks_length, List.length_replicate]

/-- A request world whose Murf responses all carry `audioFile = "u1"`. -/
def murfOkWorld : World :=
  ⟨some ("k".toList), Except.ok ⟨none, some ("hi".toList)⟩,
   ⟨200, none, [], none⟩, ⟨200, []⟩, Except.ok geminiOkResp,
   fun _ => ⟨some ("u1".toList), none⟩⟩

/-- Claim C6 (witness): a concrete successful request returns the first
(and only) chunk's url. -/
theorem first_chunk_url_spec_witness :
    (chatWithHistory murfOkWorld emptyStore ("s".toList)).1
        = Except.ok ⟨"hi".toList, "ok".toList, [("u1".toList)].headD []⟩
      ∧ [("u1".toList)].length = (murfChunks ("ok".toList)).length :=
  first_chunk_url_spec.1 murfOkWorld emptyStore ("s".toList)
    ⟨none, some ("hi".toList)⟩ geminiOkResp ("ok".toList) [("u1".toList)]
    rfl (by decide) (by decide) rfl rfl (by decide) (by decide) rfl

/-- Claim C7: in the conversation flow, when the extracted reply is
structurally absent or empty the request fails with the
"LLM reply missing or empty" 500 error, the history gains only the user
message appended before the model call, and in particular no message with
role "model" is appended. -/
theorem empty_reply_no_append_spec (w : World) (st : Store)
    (sessionId : Str) (tr : Transcript) (g : GeminiHttp)
    (htr : w.transcribe = Except.ok tr)
    (hok : (pyTruthy tr.error || !pyTruthy tr.text
      || (pyStrip (tr.text.getD [])).isEmpty) = false)
    (hroute : routeText (pyStrip (tr.text.getD [])) = Route.conversation)
    (hg : w.geminiResp = Except.ok g)
    (h200 : g.statusCode = 200)
    (hempty : extractReply g.data = none ∨ extractReply g.data = some []) :
    (chatWithHistory w st sessionId).1
        = Except.error ⟨500, "LLM reply missing or empty".toList⟩
      ∧ (chatWithHistory w st sessionId).2
          = addMessageToHistory st sessionId "user"
              (pyStrip (tr.text.getD []))
      ∧ ((chatWithHistory w st sessionId).2 sessionId).countP
            (fun m => m.role == "model")
          = (st sessionId).countP (fun m => m.role == "model") := by
  have hcore : chatWithHistory w st sessionId
      = (Except.error ⟨500, "LLM reply missing or empty".toList⟩,
         addMessageToHistory st sessionId "user"
           (pyStrip (tr.text.getD []))) := by
    rcases hempty with hnone | hsome
    · simp [chatWithHistory, htr, hok, hroute, hg, h200, hnone]
    · simp [chatWithHistory, htr, hok, hroute, hg, h200, hsome]
  refine ⟨by rw [hcore], by rw [hcore], ?_⟩
  rw [hcore]
  have hb : (("user" : String) == "model") = false := by decide
  simp [addMessageToHistory, List.countP_append, List.countP_cons, hb]

/-- A request world whose Gemini 200 response has no candidates. -/
def geminiNoCandidatesWorld : World :=
  ⟨some ("k".toList), Except.ok ⟨none, some ("hi".toList)⟩,
   ⟨200, none, [], none⟩, ⟨200, []⟩, Except.ok ⟨200, [], ⟨[]⟩⟩,
   fun _ => ⟨none, none⟩⟩

/-- Claim C7 (witness): a concrete request whose Gemini response has no
candidates. -/
theorem empty_reply_no_append_spec_witness :
    (chatWithHistory geminiNoCandidatesWorld emptyStore ("s".toList)).1
        = Except.error ⟨500, "LLM reply missing or empty".toList⟩
      ∧ (chatWithHistory geminiNoCandidatesWorld emptyStore ("s".toList)).2
          = addMessageToHistory emptyStore ("s".toList) "user" ("hi".toList)
      ∧ ((chatWithHistory geminiNoCandidatesWorld emptyStore
            ("s".toList)).2 ("s".toList)).countP
            (fun m => m.role == "model")
          = ((emptyStore : Store) ("s".toList)).countP
              (fun m => m.role == "model") :=
  empty_reply_no_append_spec geminiNoCandidatesWorld emptyStore ("s".toList)
    ⟨none, some ("hi".toList)⟩ ⟨200, [], ⟨[]⟩⟩
    rfl (by decide) (by decide) rfl rfl (Or.inl rfl)

/-- A batch of `add_message_to_history` calls, applied in order:
each element is (session id, role, text). -/
def applyAppends (st : Store) (appends : List (Str × String × Str)) : Store :=
  appends.foldl (fun acc a => addMessageToHistory acc a.1 a.2.1 a.2.2) st

theorem applyAppends_get (appends : List (Str × String × Str)) (st : Store)
    (sessionId : Str) :
    getChatHistory (applyAppends st appends) sessionId
      = getChatHistory st sessionId
        ++ (appends.filter (fun a => decide (a.1 = sessionId))).map
            (fun a => (⟨a.2.1, a.2.2⟩ : Message)) := by
  induction appends generalizing st with
  | nil => simp [applyAppends, getChatHistory]
  | cons a l ih =>
    have hstep : applyAppends st (a :: l)
        = applyAppends (addMessageToHistory st a.1 a.2.1 a.2.2) l := rfl
    rw [hstep, ih]
    by_cases h : a.1 = sessionId
    · subst h
      simp [getChatHistory, addMessageToHistory, List.filter_cons]
    · have h2 : ¬(sessionId = a.1) := fun hh => h hh.symm
      simp [getChatHistory, addMessageToHistory, List.filter_cons, h, h2]

/-- Claim C8: starting from the empty store, a batch of appends leaves each
session with exactly its own appended messages, in append order; and the
only mutating operation, one append, always extends a session's log at the
end — it never removes or reorders messages. -/
theorem history_append_only_spec :
    (∀ (appends : List (Str × String × Str)) (sessionId : Str),
      getChatHistory (applyAppends emptyStore appends) sessionId
        = (appends.filter (fun a => decide (a.1 = sessionId))).map
            (fun a => (⟨a.2.1, a.2.2⟩ : Message)))
      ∧ (∀ (st : Store) (sessionId : Str) (role : String) (text : Str)
          (sid2 : Str),
          ∃ tail,
            getChatHistory (addMessageToHistory st sessionId role text) sid2
              = getChatHistory st sid2 ++ tail) := by
  constructor
  · intro appends sessionId
    rw [applyAppends_get]
    simp [getChatHistory, emptyStore]
  · intro st sessionId role text sid2
    by_cases h : sid2 = sessionId
    · exact ⟨[⟨role, text⟩], by simp [getChatHistory, addMessageToHistory, h]⟩
    · exact ⟨[], by simp [getChatHistory, addMessageToHistory, h]⟩

theorem pyStrip_all_space (t : Str) (h : ∀ c ∈ t, pyIsSpace c = true) :
    pyStrip t = [] := by
  have h1 : t.dropWhile pyIsSpace = [] := List.dropWhile_eq_nil_iff.mpr h
  simp [pyStrip, h1]

/-- Claim C9: a transcript that is errored (truthy error), has no text, or
has whitespace-only text makes the endpoint answer a 400 error and leaves
the whole history store untouched. -/
theorem empty_transcript_400_spec (w : World) (st : Store)
    (sessionId : Str) (tr : Transcript)
    (htr : w.transcribe = Except.ok tr)
    (hbad : (∃ e, tr.error = some e ∧ e ≠ [])
        ∨ tr.text = none
        ∨ (∃ t, tr.text = some t ∧ ∀ c ∈ t, pyIsSpace c = true)) :
    ∃ e, (chatWithHistory w st sessionId).1 = Except.error e
      ∧ e.status = 400
      ∧ (chatWithHistory w st sessionId).2 = st := by
  have hcond : (pyTruthy tr.error || !pyTruthy tr.text
      || (pyStrip (tr.text.getD [])).isEmpty) = true := by
    rcases hbad with ⟨e, he, hne⟩ | hnone | ⟨t, ht, hsp⟩
    · simp [pyTruthy, he, hne]
    · simp [pyTruthy, hnone]
    · simp [ht, pyStrip_all_space t hsp]
  refine ⟨⟨400, "Transcription error: ".toList
      ++ (if pyTruthy tr.error then tr.error.getD []
          else "Empty text".toList)⟩, ?_, rfl, ?_⟩
  · simp [chatWithHistory, htr, hcond]
  · simp [chatWithHistory, htr, hcond]

/-- A request world whose transcript text is whitespace-only. -/
def blankTranscriptWorld : World :=
  ⟨some ("k".toList), Except.ok ⟨none, some ("  ".toList)⟩,
   ⟨200, none, [], none⟩, ⟨200, []⟩, Except.error [],
   fun _ => ⟨none, none⟩⟩

/-- Claim C9 (witness): a whitespace-only transcript at a concrete world. -/
theorem empty_transcript_400_spec_witness :
    ∃ e, (chatWithHistory blankTranscriptWorld emptyStore ("s".toList)).1
        = Except.error e
      ∧ e.status = 400
      ∧ (chatWithHistory blankTranscriptWorld emptyStore ("s".toList)).2
          = emptyStore :=
  empty_transcript_400_spec blankTranscriptWorld emptyStore ("s".toList)
    ⟨none, some ("  ".toList)⟩ rfl
    (Or.inr (Or.inr ⟨"  ".toList, rfl, by decide⟩))

/-- Claim C10: whenever the startup key check of lines 32-39 succeeded —
as it must have in any running process — the `NEWSAPI_KEY` value is truthy,
so `get_latest_news` never takes its not-configured short-circuit and
always returns the configured reply. -/
theorem news_key_branch_unreachable
    (assemblyaiKey murfKey geminiKey newsapiKey : Option Str)
    (h : startupCheck assemblyaiKey murfKey geminiKey newsapiKey
      = Except.ok ())
    (topic : Str) (resp : NewsHttp) :
    pyTruthy newsapiKey = true
      ∧ getLatestNews newsapiKey topic resp
          = newsConfiguredReply topic resp := by
  have hn : pyTruthy newsapiKey = true := by
    cases ha : pyTruthy assemblyaiKey <;> cases hm : pyTruthy murfKey <;>
      cases hgk : pyTruthy geminiKey <;> cases hnk : pyTruthy newsapiKey <;>
      simp [startupCheck, ha, hm, hgk, hnk] at h ⊢
  exact ⟨hn, by simp [getLatestNews, hn]⟩

/-- Claim C10 (witness): a concrete environment that passes startup. -/
theorem news_key_branch_unreachable_witness :
    pyTruthy (some ("d".toList)) = true
      ∧ getLatestNews (some ("d".toList)) ("x".toList) ⟨200, []⟩
          = newsConfiguredReply ("x".toList) ⟨200, []⟩ :=
  news_key_branch_unreachable (some ("a".toList)) (some ("b".toList))
    (some ("c".toList)) (some ("d".toList)) rfl ("x".toList) ⟨200, []⟩
